import Mathlib

/-!
Verification development for the deet debugger (cs110l proj-1):
a shallow embedding of src/proj-1/deet/src/inferior.rs and
src/proj-1/deet/src/debugger.rs.

Operating-system interaction (ptrace, waitpid, spawn, try_wait) is
modelled by an oracle record supplying the outcome of each system call
made during one command-loop iteration; every system call and every
operator-visible print is recorded in an effect trace.  Panics
(`unwrap` / `expect` / `panic!` in the Rust source) are modelled by a
dedicated result constructor.  The backtrace loop of
`Inferior::print_backtrace`, which has no bound in the source, is
modelled with explicit fuel; running out of fuel is a distinguished
outcome marking that the loop was still running.
-/

set_option maxHeartbeats 1000000

namespace Deet

/-- Signals are modelled by their POSIX numbers. -/
abbrev Signal := Nat

/-- SIGTRAP, the signal expected at the first trace-stop after spawn. -/
def SIGTRAP : Signal := 5

/-- SIGKILL, sent by std::process::Child::kill. -/
def SIGKILL : Signal := 9

/-- The register snapshot returned by ptrace::getregs; only the fields the
debugger reads are modelled: rip (instruction pointer) and rbp (frame base). -/
structure Regs where
  rip : Nat
  rbp : Nat
deriving DecidableEq, Repr

/-- The shapes of nix::sys::wait::WaitStatus that the source decodes; otherWS
stands for every other shape (the `other` arm of Inferior::wait). -/
inductive WaitStatus where
  | exitedWS (code : Int)
  | signaledWS (sig : Signal) (core : Bool)
  | stoppedWS (sig : Signal)
  | otherWS
deriving DecidableEq, Repr

/-- The Status enum of inferior.rs. -/
inductive Status where
  | stopped (sig : Signal) (ptr : Nat)
  | exited (code : Int)
  | signaled (sig : Signal)
  | none
deriving DecidableEq, Repr

/-- Result of one modelled operation: ok / Err(nix::Error) / the thread
panicked (unwrap, expect, panic!) / the modelled loop ran out of fuel. -/
inductive OpResult (α : Type) where
  | ok (a : α)
  | err
  | panicked
  | noFuel
deriving DecidableEq, Repr

/-- One observable effect: an operator-visible print or one system call. -/
inductive Effect where
  | printEff (s : String)
  | ptraceContEff
  | ptraceReadEff (addr : Nat)
  | getRegsEff
  | killSignalEff
  | blockingWaitEff
  | tryWaitEff
  | spawnSyscallEff (target : String) (args : List String)
deriving DecidableEq, Repr

/-- Effects that change the state of some process or block on it: resuming
(ptrace::cont), signalling (Child::kill), a blocking waitpid, or spawning.
Prints, non-blocking probes and reads are not state changing. -/
def Effect.stateChanging : Effect → Bool
  | .ptraceContEff => true
  | .killSignalEff => true
  | .blockingWaitEff => true
  | .spawnSyscallEff _ _ => true
  | _ => false

/-- True exactly for the spawn system call effect. -/
def Effect.isSpawn : Effect → Bool
  | .spawnSyscallEff _ _ => true
  | _ => false

/-- A source line, as returned by DwarfData::get_line_from_addr. -/
structure Line where
  file : String
  number : Nat
deriving DecidableEq, Repr

/-- The two query functions of the dwarf debug database that
print_backtrace uses; both are pure lookups that may fail. -/
structure DwarfData where
  get_line_from_addr : Nat → Option Line
  get_function_from_addr : Nat → Option String

/-- The Inferior struct: the traced child, identified by its pid. -/
structure Inferior where
  pid : Nat
deriving DecidableEq, Repr

/-- Oracle for one command-loop iteration: the outcome of each system call
that iteration can make.  Fields are per call site. -/
structure Oracle where
  /-- Child::try_wait in Inferior::running: Ok (some _) means the child was
  observed dead, Ok none means still running, error makes running panic. -/
  tryWaitRes : Except Unit (Option Unit)
  /-- whether ptrace::cont succeeds. -/
  contOk : Bool
  /-- blocking waitpid outcome in continue_exec / kill. -/
  waitRes : Except Unit WaitStatus
  /-- ptrace::getregs outcome inside Inferior::wait. -/
  waitRegs : Except Unit Regs
  /-- whether Child::kill (the SIGKILL send) succeeds. -/
  killSysOk : Bool
  /-- whether Command::spawn succeeds in Inferior::new. -/
  spawnOk : Bool
  /-- pid the operating system assigns to a newly spawned child. -/
  newPid : Nat
  /-- first waitpid outcome in Inferior::new (WSTOPPED wait). -/
  spawnWaitRes : Except Unit WaitStatus
  /-- ptrace::getregs outcome for that first wait. -/
  spawnWaitRegs : Except Unit Regs
  /-- ptrace::getregs in print_backtrace; failure makes expect panic. -/
  btRegs : Option Regs

/-- Inferior::wait (inferior.rs lines 133-143): decode one waitpid result.
Exited and Signaled map directly; Stopped additionally reads registers to
report rip; any other shape panics. -/
def Inferior.wait (waitRes : Except Unit WaitStatus) (regsRes : Except Unit Regs) :
    OpResult Status × List Effect :=
  match waitRes with
  | .error _ => (.err, [.blockingWaitEff])
  | .ok (.exitedWS code) => (.ok (.exited code), [.blockingWaitEff])
  | .ok (.signaledWS sig _) => (.ok (.signaled sig), [.blockingWaitEff])
  | .ok (.stoppedWS sig) =>
    match regsRes with
    | .error _ => (.err, [.blockingWaitEff, .getRegsEff])
    | .ok regs => (.ok (.stopped sig regs.rip), [.blockingWaitEff, .getRegsEff])
  | .ok .otherWS => (.panicked, [.blockingWaitEff])

/-- Inferior::running (inferior.rs lines 90-96): non-blocking liveness probe
via Child::try_wait; a probe error panics. -/
def Inferior.running (tryWaitRes : Except Unit (Option Unit)) : OpResult Bool :=
  match tryWaitRes with
  | .ok (some _) => .ok false
  | .ok Option.none => .ok true
  | .error _ => .panicked

/-- Inferior::check_running (inferior.rs lines 80-88): probe liveness and
print the notice when the child is no longer running. -/
def Inferior.check_running (_inf : Inferior) (o : Oracle) : OpResult Bool × List Effect :=
  match Inferior.running o.tryWaitRes with
  | .ok true => (.ok true, [.tryWaitEff])
  | .ok false => (.ok false, [.tryWaitEff, .printEff "No running inferior"])
  | .panicked => (.panicked, [.tryWaitEff])
  | .err => (.err, [.tryWaitEff])
  | .noFuel => (.noFuel, [.tryWaitEff])

/-- Inferior::continue_exec (inferior.rs lines 62-68): reject a dead child
with Status::None, otherwise ptrace::cont then blocking wait. -/
def Inferior.continue_exec (inf : Inferior) (o : Oracle) : OpResult Status × List Effect :=
  match inf.check_running o with
  | (.ok false, effs) => (.ok .none, effs)
  | (.ok true, effs) =>
    if o.contOk then
      let w := Inferior.wait o.waitRes o.waitRegs
      (w.1, effs ++ [.ptraceContEff] ++ w.2)
    else (.err, effs ++ [.ptraceContEff])
  | (.panicked, effs) => (.panicked, effs)
  | (.err, effs) => (.err, effs)
  | (.noFuel, effs) => (.noFuel, effs)

/-- The operator notice printed by Inferior::kill. -/
def killMsg (pid : Nat) : String :=
  "Killing running inferior (pid " ++ toString pid ++ ")"

/-- Inferior::kill (inferior.rs lines 70-78): reject a dead child with
Status::None, otherwise Child::kill (unwrap: panics on failure), print the
notice, then blocking wait for the confirming event. -/
def Inferior.kill (inf : Inferior) (o : Oracle) : OpResult Status × List Effect :=
  match inf.check_running o with
  | (.ok false, effs) => (.ok .none, effs)
  | (.ok true, effs) =>
    if o.killSysOk then
      let w := Inferior.wait o.waitRes o.waitRegs
      (w.1, effs ++ [.killSignalEff, .printEff (killMsg inf.pid)] ++ w.2)
    else (.panicked, effs ++ [.killSignalEff])
  | (.panicked, effs) => (.panicked, effs)
  | (.err, effs) => (.err, effs)
  | (.noFuel, effs) => (.noFuel, effs)

/-- Inferior::new (inferior.rs lines 40-59): spawn the child under
PTRACE_TRACEME.  A spawn failure maps to Ok None (the .ok() at line 57).
On spawn success the first WSTOPPED wait is unwrapped (wait errors panic);
a SIGTRAP stop yields the handle and every other decoded status runs
Err(EIO).unwrap(), a panic. -/
def Inferior.new (target : String) (args : List String) (o : Oracle) :
    OpResult (Option Inferior) × List Effect :=
  if o.spawnOk then
    let w := Inferior.wait o.spawnWaitRes o.spawnWaitRegs
    match w.1 with
    | .ok (.stopped sig _) =>
      if sig = SIGTRAP then
        (.ok (some { pid := o.newPid }), .spawnSyscallEff target args :: w.2)
      else
        (.panicked, .spawnSyscallEff target args :: w.2)
    | .ok _ => (.panicked, .spawnSyscallEff target args :: w.2)
    | _ => (.panicked, .spawnSyscallEff target args :: w.2)
  else
    (.ok Option.none, [.spawnSyscallEff target args])

/-- One backtrace frame as printed by print_backtrace: the resolved function
name, file, line number, and the address it was resolved from. -/
structure Frame where
  func : String
  file : String
  number : Nat
  addr : Nat
deriving DecidableEq, Repr

/-- The line print_backtrace prints for one frame. -/
def frameLine (fr : Frame) : String :=
  fr.func ++ " (" ++ fr.file ++ ":" ++ toString fr.number ++ ")"

/-- Outcome of the backtrace walk loop, carrying the frames printed before
the loop finished: okW, the loop broke at a frame named main; readErrW, a
ptrace::read failed and the error propagates; panicW, a dwarf lookup failed
and expect panicked; fuelW, the modelling fuel ran out with the loop still
running. -/
inductive WalkOutcome where
  | okW (printed : List Frame)
  | readErrW (printed : List Frame)
  | panicW (printed : List Frame)
  | fuelW (printed : List Frame)
deriving DecidableEq, Repr

/-- The frames printed before the walk finished, for any outcome. -/
def WalkOutcome.printed : WalkOutcome → List Frame
  | .okW l => l
  | .readErrW l => l
  | .panicW l => l
  | .fuelW l => l

/-- Prepend one printed frame to a walk outcome. -/
def consW (fr : Frame) : WalkOutcome → WalkOutcome
  | .okW l => .okW (fr :: l)
  | .readErrW l => .readErrW (fr :: l)
  | .panicW l => .panicW (fr :: l)
  | .fuelW l => .fuelW (fr :: l)

/-- The loop of Inferior::print_backtrace (inferior.rs lines 106-115), with
fuel.  Each iteration resolves the current instruction pointer through the
dwarf data (expect: a failed lookup panics), prints the frame line, breaks if
the resolved name is main, and otherwise reads the saved return address at
base + 8 and the saved frame base at base from the traced memory (ptrace
read failures propagate as errors). -/
def walkLoop (dd : DwarfData) (mem : Nat → Option Nat) :
    Nat → Nat → Nat → WalkOutcome × List Effect
  | 0, _, _ => (.fuelW [], [])
  | fuel + 1, ip, bp =>
    match dd.get_line_from_addr ip with
    | Option.none => (.panicW [], [])
    | some line =>
      match dd.get_function_from_addr ip with
      | Option.none => (.panicW [], [])
      | some fn =>
        let fr : Frame := { func := fn, file := line.file, number := line.number, addr := ip }
        let pr : Effect := .printEff (frameLine fr)
        if fn = "main" then (.okW [fr], [pr])
        else
          match mem (bp + 8) with
          | Option.none => (.readErrW [fr], [pr, .ptraceReadEff (bp + 8)])
          | some ip2 =>
            match mem bp with
            | Option.none =>
              (.readErrW [fr], [pr, .ptraceReadEff (bp + 8), .ptraceReadEff bp])
            | some bp2 =>
              let rest := walkLoop dd mem fuel ip2 bp2
              (consW fr rest.1, pr :: .ptraceReadEff (bp + 8) :: .ptraceReadEff bp :: rest.2)

/-- Inferior::print_backtrace (inferior.rs lines 98-117): reject a dead
child with Status::None; read registers (expect: panic on failure); run the
walk loop from (rip, rbp); on a normal break return Ok(Status::None). -/
def Inferior.print_backtrace (inf : Inferior) (o : Oracle) (dd : DwarfData)
    (mem : Nat → Option Nat) (fuel : Nat) : OpResult Status × List Effect :=
  match inf.check_running o with
  | (.ok false, effs) => (.ok .none, effs)
  | (.ok true, effs) =>
    match o.btRegs with
    | Option.none => (.panicked, effs ++ [.getRegsEff])
    | some regs =>
      let w := walkLoop dd mem fuel regs.rip regs.rbp
      match w.1 with
      | .okW _ => (.ok .none, effs ++ [.getRegsEff] ++ w.2)
      | .readErrW _ => (.err, effs ++ [.getRegsEff] ++ w.2)
      | .panicW _ => (.panicked, effs ++ [.getRegsEff] ++ w.2)
      | .fuelW _ => (.noFuel, effs ++ [.getRegsEff] ++ w.2)
  | (.panicked, effs) => (.panicked, effs)
  | (.err, effs) => (.err, effs)
  | (.noFuel, effs) => (.noFuel, effs)

/-- The DebuggerCommand enum (closed command set reaching the loop). -/
inductive DebuggerCommand where
  | runCmd (args : List String)
  | continueCmd
  | quitCmd
  | backtraceCmd
deriving DecidableEq, Repr

/-- The loop state of Debugger::run: the target path and the at-most-one
active inferior slot. -/
structure DebuggerState where
  target : String
  inferior : Option Inferior
deriving DecidableEq, Repr

/-- Outcome of one command-loop iteration: continue looping with a new
state, return from run (the Quit arm), panic, or the modelled backtrace
fuel ran out. -/
inductive StepOutcome where
  | nextS (st : DebuggerState)
  | stopS (st : DebuggerState)
  | panicS
  | noFuelS
deriving DecidableEq, Repr

/-- The status-rendering match of Debugger::run (debugger.rs lines 88-106):
terminal events print a summary and clear the inferior slot, a stop prints a
summary and keeps the slot, Status::None prints nothing, an Err prints the
error notice. -/
def renderStatus (st : DebuggerState) (r : OpResult Status) : DebuggerState × List Effect :=
  match r with
  | .ok (.exited code) =>
    ({ st with inferior := Option.none },
     [.printEff ("Child exited (status " ++ toString code ++ ")")])
  | .ok (.signaled sig) =>
    ({ st with inferior := Option.none },
     [.printEff ("Child signaled (signal " ++ toString sig ++ ")")])
  | .ok (.stopped sig _) =>
    (st, [.printEff ("Child stopped (signal " ++ toString sig ++ ")")])
  | .ok .none => (st, [])
  | .err => (st, [.printEff "Error running inferior"])
  | .panicked => (st, [])
  | .noFuel => (st, [])

/-- Route a command-arm result through the status rendering; panics and
fuel exhaustion abort the loop instead of being rendered. -/
def finishStep (st : DebuggerState) (r : OpResult Status) (effs : List Effect) :
    StepOutcome × List Effect :=
  match r with
  | .panicked => (.panicS, effs)
  | .noFuel => (.noFuelS, effs)
  | r =>
    let rend := renderStatus st r
    (.nextS rend.1, effs ++ rend.2)

/-- One iteration of Debugger::run (debugger.rs lines 46-107): dispatch one
command.  Run with an active inferior only kills it; Run with an empty slot
spawns (installing the handle on success and resuming it once) or reports
Err(EIO) when new returned None.  Continue and Backtrace report Err(EIO)
when no inferior is active.  Quit kills an active inferior (expect: an Err
from kill panics) and returns without rendering; Quit with an empty slot
reports Err(EIO) and the loop continues. -/
def debuggerStep (dd : DwarfData) (mem : Nat → Option Nat) (fuel : Nat)
    (st : DebuggerState) (o : Oracle) (cmd : DebuggerCommand) :
    StepOutcome × List Effect :=
  match cmd with
  | .runCmd args =>
    match st.inferior with
    | some inf =>
      let k := inf.kill o
      finishStep st k.1 k.2
    | Option.none =>
      let n := Inferior.new st.target args o
      match n.1 with
      | .ok (some inf) =>
        let st2 : DebuggerState := { st with inferior := some inf }
        let c := inf.continue_exec o
        (finishStep st2 c.1 (n.2 ++ c.2))
      | .ok Option.none => finishStep st .err n.2
      | _ => (.panicS, n.2)
  | .continueCmd =>
    match st.inferior with
    | some inf =>
      let c := inf.continue_exec o
      finishStep st c.1 c.2
    | Option.none => finishStep st .err []
  | .quitCmd =>
    match st.inferior with
    | some inf =>
      let k := inf.kill o
      match k.1 with
      | .ok _ => (.stopS st, k.2)
      | _ => (.panicS, k.2)
    | Option.none => finishStep st .err []
  | .backtraceCmd =>
    match st.inferior with
    | some inf =>
      let b := inf.print_backtrace o dd mem fuel
      match b.1 with
      | .noFuel => (.noFuelS, b.2)
      | r => finishStep st r b.2
    | Option.none => finishStep st .err []

/-- Run a list of commands, each with its own oracle, until one iteration
does not continue the loop. -/
def runCommands (dd : DwarfData) (mem : Nat → Option Nat) (fuel : Nat)
    (st : DebuggerState) : List (DebuggerCommand × Oracle) → StepOutcome × List Effect
  | [] => (.nextS st, [])
  | (c, o) :: rest =>
    match debuggerStep dd mem fuel st o c with
    | (.nextS st2, effs) =>
      let r := runCommands dd mem fuel st2 rest
      (r.1, effs ++ r.2)
    | other => other

/-- True exactly for the terminal Status variants Exited and Signaled. -/
def Status.isTerminal : Status → Bool
  | .exited _ => true
  | .signaled _ => true
  | _ => false

/-- True exactly for the terminal WaitStatus shapes. -/
def WaitStatus.isTerminalWS : WaitStatus → Bool
  | .exitedWS _ => true
  | .signaledWS _ _ => true
  | _ => false

/-- One entry of a synthetic frame chain: the instruction pointer and frame
base on entry to the iteration, together with the dwarf resolution the
chain assigns to that instruction pointer. -/
structure ChainEntry where
  ip : Nat
  bp : Nat
  fn : String
  line : Line
deriving DecidableEq, Repr

/-- The frame the walk prints for a chain entry. -/
def entryFrame (e : ChainEntry) : Frame :=
  { func := e.fn, file := e.line.file, number := e.line.number, addr := e.ip }

/-- A well-formed synthetic frame chain for the walk: every entry resolves
as recorded, only the last entry is named main, and memory links each frame
base to the next instruction pointer (at base + 8) and next frame base (at
base). -/
inductive Chain (dd : DwarfData) (mem : Nat → Option Nat) : List ChainEntry → Prop
  | last (e : ChainEntry)
      (hl : dd.get_line_from_addr e.ip = some e.line)
      (hf : dd.get_function_from_addr e.ip = some e.fn)
      (hm : e.fn = "main") : Chain dd mem [e]
  | step (e e2 : ChainEntry) (rest : List ChainEntry)
      (hl : dd.get_line_from_addr e.ip = some e.line)
      (hf : dd.get_function_from_addr e.ip = some e.fn)
      (hm : e.fn ≠ "main")
      (hip : mem (e.bp + 8) = some e2.ip)
      (hbp : mem e.bp = some e2.bp)
      (hrest : Chain dd mem (e2 :: rest)) : Chain dd mem (e :: e2 :: rest)

/-! Concrete fixtures used by witnesses and counterexamples. -/

/-- A dwarf database resolving every address to main at a.c line 1. -/
def ddMain : DwarfData :=
  { get_line_from_addr := fun _ => some { file := "a.c", number := 1 },
    get_function_from_addr := fun _ => some "main" }

/-- A dwarf database resolving every address to a function f that is not
main. -/
def ddLoop : DwarfData :=
  { get_line_from_addr := fun _ => some { file := "a.c", number := 1 },
    get_function_from_addr := fun _ => some "f" }

/-- Traced memory whose every word reads as zero. -/
def memZero : Nat → Option Nat := fun _ => some 0

/-- Base oracle: the liveness probe reports the child running and every
system call succeeds; blocking waits decode to a SIGTRAP stop. -/
def oracleBase : Oracle :=
  { tryWaitRes := .ok Option.none,
    contOk := true,
    waitRes := .ok (.stoppedWS SIGTRAP),
    waitRegs := .ok { rip := 0, rbp := 0 },
    killSysOk := true,
    spawnOk := true,
    newPid := 7,
    spawnWaitRes := .ok (.stoppedWS SIGTRAP),
    spawnWaitRegs := .ok { rip := 0, rbp := 0 },
    btRegs := some { rip := 0, rbp := 0 } }

/-- Oracle whose blocking wait observes death by SIGKILL. -/
def oracleKilled : Oracle :=
  { oracleBase with waitRes := .ok (.signaledWS SIGKILL false) }

/-- Oracle whose liveness probe observes the child already dead. -/
def oracleDead : Oracle :=
  { oracleBase with tryWaitRes := .ok (some ()) }

/-- Oracle whose spawn succeeds but whose first wait observes the child
exiting with code 0 before any trap. -/
def oracleEarlyExit : Oracle :=
  { oracleBase with spawnWaitRes := .ok (.exitedWS 0) }

/-- Loop state with no active inferior. -/
def stEmpty : DebuggerState := { target := "t", inferior := Option.none }

/-- Loop state with an active inferior of pid 42. -/
def stActive : DebuggerState := { target := "t", inferior := some { pid := 42 } }

/-- Oracle whose blocking wait observes a clean exit with code 0. -/
def oracleExit0 : Oracle :=
  { oracleBase with waitRes := .ok (.exitedWS 0) }

/-- True exactly for the loop outcome that returns from Debugger::run. -/
def StepOutcome.isStop : StepOutcome → Bool
  | .stopS _ => true
  | _ => false

/-- Dwarf database for the two-frame chain witness: address 100 is
function g at a.c line 3, address 200 is main at a.c line 10. -/
def ddChain : DwarfData :=
  { get_line_from_addr := fun a =>
      if a = 100 then some { file := "a.c", number := 3 }
      else if a = 200 then some { file := "a.c", number := 10 }
      else Option.none,
    get_function_from_addr := fun a =>
      if a = 100 then some "g"
      else if a = 200 then some "main"
      else Option.none }

/-- Memory for the two-frame chain witness: frame base 1000 stores the
next instruction pointer 200 at 1008 and the caller frame base 2000 at
1000. -/
def memChain : Nat → Option Nat := fun a =>
  if a = 1008 then some 200 else if a = 1000 then some 2000 else Option.none

/-- First entry of the witness chain: function g. -/
def entryG : ChainEntry :=
  { ip := 100, bp := 1000, fn := "g", line := { file := "a.c", number := 3 } }

/-- Last entry of the witness chain: main. -/
def entryMain : ChainEntry :=
  { ip := 200, bp := 2000, fn := "main", line := { file := "a.c", number := 10 } }

/-- Dwarf database that resolves address 0 to function f at a.c line 1 and
fails to resolve every other address. -/
def ddBroken : DwarfData :=
  { get_line_from_addr := fun a =>
      if a = 0 then some { file := "a.c", number := 1 } else Option.none,
    get_function_from_addr := fun a => if a = 0 then some "f" else Option.none }

/-- Memory whose frame base 0 stores next instruction pointer 1 at address
8 and next frame base 16 at address 0. -/
def memBroken : Nat → Option Nat := fun a =>
  if a = 8 then some 1 else if a = 0 then some 16 else Option.none

/-- Memory on which every read fails. -/
def memFail : Nat → Option Nat := fun _ => Option.none

/-- A Continue command followed by a Backtrace command, both with the base
oracle. -/
def cmdsCB : List (DebuggerCommand × Oracle) :=
  [(.continueCmd, oracleBase), (.backtraceCmd, oracleBase)]

/-! Helper lemmas shared by several claims. -/

/-- A Continue command dispatched with an empty inferior slot evaluates the
Err(EIO) arm: the loop keeps its state and prints only the error notice. -/
theorem stepEmptyContinue (dd : DwarfData) (mem : Nat → Option Nat) (fuel : Nat)
    (st : DebuggerState) (o : Oracle) (h : st.inferior = Option.none) :
    debuggerStep dd mem fuel st o .continueCmd
      = (.nextS st, [.printEff "Error running inferior"]) := by
  simp [debuggerStep, h, finishStep, renderStatus]

/-- A Backtrace command dispatched with an empty inferior slot evaluates
the Err(EIO) arm: the loop keeps its state and prints only the error
notice. -/
theorem stepEmptyBacktrace (dd : DwarfData) (mem : Nat → Option Nat) (fuel : Nat)
    (st : DebuggerState) (o : Oracle) (h : st.inferior = Option.none) :
    debuggerStep dd mem fuel st o .backtraceCmd
      = (.nextS st, [.printEff "Error running inferior"]) := by
  simp [debuggerStep, h, finishStep, renderStatus]

/-- Any sequence of Continue and Backtrace commands processed with an empty
inferior slot leaves the state unchanged and prints one error notice per
command. -/
theorem runCommandsEmpty (dd : DwarfData) (mem : Nat → Option Nat) (fuel : Nat)
    (st : DebuggerState) (h : st.inferior = Option.none)
    (cmds : List (DebuggerCommand × Oracle))
    (hc : ∀ p ∈ cmds,
      p.1 = DebuggerCommand.continueCmd ∨ p.1 = DebuggerCommand.backtraceCmd) :
    runCommands dd mem fuel st cmds
      = (.nextS st, List.replicate cmds.length (.printEff "Error running inferior")) := by
  induction cmds with
  | nil => rfl
  | cons p rest ih =>
    obtain ⟨c, o⟩ := p
    have hrest := ih (fun q hq => hc q (List.mem_cons_of_mem _ hq))
    rcases hc ⟨c, o⟩ (List.mem_cons_self _ _) with h1 | h1 <;>
      simp only at h1 <;> subst h1 <;>
      simp [runCommands, stepEmptyContinue dd mem fuel st o h,
        stepEmptyBacktrace dd mem fuel st o h, hrest, List.replicate]

/-- The printed component of consW prepends the frame. -/
theorem consW_printed (fr : Frame) (w : WalkOutcome) :
    (consW fr w).printed = fr :: w.printed := by
  cases w <;> rfl

/-- Every frame recorded as printed by the walk loop has its frame line
among the effects of the walk loop. -/
theorem walk_printed_in_effects (dd : DwarfData) (mem : Nat → Option Nat) :
    ∀ (fuel ip bp : Nat) (fr : Frame),
      fr ∈ ((walkLoop dd mem fuel ip bp).1).printed →
      Effect.printEff (frameLine fr) ∈ (walkLoop dd mem fuel ip bp).2 := by
  intro fuel
  induction fuel with
  | zero => intro ip bp fr h; simp [walkLoop, WalkOutcome.printed] at h
  | succ n ih =>
    intro ip bp fr h
    rcases hL : dd.get_line_from_addr ip with _ | line
    · simp [walkLoop, hL, WalkOutcome.printed] at h
    rcases hF : dd.get_function_from_addr ip with _ | fn
    · simp [walkLoop, hL, hF, WalkOutcome.printed] at h
    by_cases hMain : fn = "main"
    · simp [walkLoop, hL, hF, hMain, WalkOutcome.printed] at h ⊢
      simp [h]
    · rcases hR1 : mem (bp + 8) with _ | ip2
      · simp [walkLoop, hL, hF, hMain, hR1, WalkOutcome.printed] at h ⊢
        simp [h]
      rcases hR2 : mem bp with _ | bp2
      · simp [walkLoop, hL, hF, hMain, hR1, hR2, WalkOutcome.printed] at h ⊢
        simp [h]
      · simp [walkLoop, hL, hF, hMain, hR1, hR2, consW_printed] at h ⊢
        rcases h with h | h
        · simp [h]
        · simp [ih ip2 bp2 fr h]

/-- Every effect of the walk loop is a print or a read: none is state
changing. -/
theorem walk_effects_not_state_changing (dd : DwarfData) (mem : Nat → Option Nat) :
    ∀ (fuel ip bp : Nat), ∀ e ∈ (walkLoop dd mem fuel ip bp).2,
      e.stateChanging = false := by
  intro fuel
  induction fuel with
  | zero => intro ip bp e he; simp [walkLoop] at he
  | succ n ih =>
    intro ip bp e he
    rcases hL : dd.get_line_from_addr ip with _ | line
    · simp [walkLoop, hL] at he
    rcases hF : dd.get_function_from_addr ip with _ | fn
    · simp [walkLoop, hL, hF] at he
    by_cases hMain : fn = "main"
    · simp [walkLoop, hL, hF, hMain] at he
      simp [he, Effect.stateChanging]
    · rcases hR1 : mem (bp + 8) with _ | ip2
      · simp [walkLoop, hL, hF, hMain, hR1] at he
        rcases he with he | he <;> simp [he, Effect.stateChanging]
      rcases hR2 : mem bp with _ | bp2
      · simp [walkLoop, hL, hF, hMain, hR1, hR2] at he
        rcases he with he | he | he <;> simp [he, Effect.stateChanging]
      · simp [walkLoop, hL, hF, hMain, hR1, hR2] at he
        rcases he with he | he | he | he
        · simp [he, Effect.stateChanging]
        · simp [he, Effect.stateChanging]
        · simp [he, Effect.stateChanging]
        · exact ih ip2 bp2 e he

/-! Claim theorems. -/

/-- Claim C1 counterexample: with a process active (pid 42), a Run command
only kills it.  At this input the command completes with the
active-process slot empty, not holding a newly spawned process, and no
spawn system call occurs, refuting the claim that Run terminates the old
process and then spawns a fresh one into the slot. -/
theorem claim1_counterexample :
    debuggerStep ddMain memZero 3 stActive oracleKilled (.runCmd ["a"])
      = (.nextS { target := "t", inferior := Option.none },
         [.tryWaitEff, .killSignalEff, .printEff "Killing running inferior (pid 42)",
          .blockingWaitEff, .printEff "Child signaled (signal 9)"])
    ∧ ∀ e ∈ (debuggerStep ddMain memZero 3 stActive oracleKilled (.runCmd ["a"])).2,
        e.isSpawn = false := by
  exact ⟨rfl, by decide⟩

/-- Claim C1 (amended): a Run command received while a process is active
only terminates it — no spawn occurs and, when the kill observes a
terminal event, the status rendering leaves the active slot empty.  A
fresh process is spawned, installed in the slot and resumed once only when
no process is active; if the spawn fails the loop reports the error and
leaves the slot empty. -/
theorem claim1_amended (dd : DwarfData) (mem : Nat → Option Nat) (fuel : Nat)
    (st : DebuggerState) (o : Oracle) (args : List String) :
    (∀ (inf : Inferior) (c : Int), st.inferior = some inf →
        o.tryWaitRes = Except.ok Option.none →
        o.killSysOk = true →
        o.waitRes = Except.ok (WaitStatus.exitedWS c) →
        debuggerStep dd mem fuel st o (.runCmd args)
          = (.nextS { st with inferior := Option.none },
             [.tryWaitEff, .killSignalEff, .printEff (killMsg inf.pid), .blockingWaitEff,
              .printEff ("Child exited (status " ++ toString c ++ ")")]))
    ∧ (∀ (inf : Inferior) (s : Signal) (b : Bool), st.inferior = some inf →
        o.tryWaitRes = Except.ok Option.none →
        o.killSysOk = true →
        o.waitRes = Except.ok (WaitStatus.signaledWS s b) →
        debuggerStep dd mem fuel st o (.runCmd args)
          = (.nextS { st with inferior := Option.none },
             [.tryWaitEff, .killSignalEff, .printEff (killMsg inf.pid), .blockingWaitEff,
              .printEff ("Child signaled (signal " ++ toString s ++ ")")]))
    ∧ (∀ (s : Signal) (rr rr2 : Regs), st.inferior = Option.none →
        o.spawnOk = true →
        o.spawnWaitRes = Except.ok (.stoppedWS SIGTRAP) →
        o.spawnWaitRegs = Except.ok rr →
        o.tryWaitRes = Except.ok Option.none →
        o.contOk = true →
        o.waitRes = Except.ok (.stoppedWS s) →
        o.waitRegs = Except.ok rr2 →
        debuggerStep dd mem fuel st o (.runCmd args)
          = (.nextS { st with inferior := some { pid := o.newPid } },
             [.spawnSyscallEff st.target args, .blockingWaitEff, .getRegsEff,
              .tryWaitEff, .ptraceContEff, .blockingWaitEff, .getRegsEff,
              .printEff ("Child stopped (signal " ++ toString s ++ ")")]))
    ∧ (st.inferior = Option.none → o.spawnOk = false →
        debuggerStep dd mem fuel st o (.runCmd args)
          = (.nextS st,
             [.spawnSyscallEff st.target args, .printEff "Error running inferior"])) := by
  refine ⟨?_, ?_, ?_, ?_⟩
  · intro inf c h1 h2 h3 h4
    simp [debuggerStep, h1, Inferior.kill, Inferior.check_running, Inferior.running,
      Inferior.wait, h2, h3, h4, finishStep, renderStatus]
  · intro inf s b h1 h2 h3 h4
    simp [debuggerStep, h1, Inferior.kill, Inferior.check_running, Inferior.running,
      Inferior.wait, h2, h3, h4, finishStep, renderStatus]
  · intro s rr rr2 h1 h2 h3 h4 h5 h6 h7 h8
    simp [debuggerStep, h1, Inferior.new, Inferior.continue_exec, Inferior.check_running,
      Inferior.running, Inferior.wait, h2, h3, h4, h5, h6, h7, h8, SIGTRAP,
      finishStep, renderStatus]
  · intro h1 h2
    simp [debuggerStep, h1, Inferior.new, h2, finishStep, renderStatus]

/-- Witness for the amended C1: the kill-only path at pid 42 with a clean
exit, and the spawn path from an empty slot installing the new pid 7 and
resuming it once. -/
theorem claim1_amended_witness :
    debuggerStep ddMain memZero 3 stActive oracleExit0 (.runCmd ["a"])
      = (.nextS { target := "t", inferior := Option.none },
         [.tryWaitEff, .killSignalEff, .printEff "Killing running inferior (pid 42)",
          .blockingWaitEff, .printEff "Child exited (status 0)"])
    ∧ debuggerStep ddMain memZero 3 stEmpty oracleBase (.runCmd ["a"])
      = (.nextS { target := "t", inferior := some { pid := 7 } },
         [.spawnSyscallEff "t" ["a"], .blockingWaitEff, .getRegsEff,
          .tryWaitEff, .ptraceContEff, .blockingWaitEff, .getRegsEff,
          .printEff "Child stopped (signal 5)"]) :=
  ⟨(claim1_amended ddMain memZero 3 stActive oracleExit0 ["a"]).1
      { pid := 42 } 0 rfl rfl rfl rfl,
   (claim1_amended ddMain memZero 3 stEmpty oracleBase ["a"]).2.2.1
      SIGTRAP { rip := 0, rbp := 0 } { rip := 0, rbp := 0 }
      rfl rfl rfl rfl rfl rfl rfl rfl⟩

/-- Claim C2: evaluation at the failing input.  A Quit command arriving
with no active process evaluates the Err(EIO) arm: the loop prints the
error notice and continues with its state unchanged, instead of exiting
immediately as the claim (and the Ctrl-D handling comment in
get_next_command) requires. -/
theorem claim2_quit_empty_continues :
    debuggerStep ddMain memZero 3 stEmpty oracleBase .quitCmd
      = (.nextS stEmpty, [.printEff "Error running inferior"])
    ∧ (debuggerStep ddMain memZero 3 stEmpty oracleBase .quitCmd).1.isStop = false := by
  exact ⟨rfl, rfl⟩

/-- Claim C3: evaluation at the failing input.  The spawn system call
succeeds but the first wait observes the child exiting with code 0 before
any trap; Inferior::new then runs Err(EIO).unwrap() and panics, instead of
returning the None failure value as the claim and its own doc comment
state. -/
theorem claim3_spawn_nontrap_panics :
    (Inferior.new "t" [] oracleEarlyExit).1 = OpResult.panicked
    ∧ (Inferior.new "t" [] oracleEarlyExit).1 ≠ OpResult.ok Option.none := by
  exact ⟨rfl, by decide⟩

/-- Generalized chain soundness for the walk loop, by induction over the
chain derivation. -/
theorem chain_walk (dd : DwarfData) (mem : Nat → Option Nat) :
    ∀ (l : List ChainEntry), Chain dd mem l →
      ∀ (fuel : Nat), l.length ≤ fuel →
      ∀ (e : ChainEntry) (rest : List ChainEntry), l = e :: rest →
      (walkLoop dd mem fuel e.ip e.bp).1 = WalkOutcome.okW (l.map entryFrame) := by
  intro l h
  induction h with
  | last e hl hf hm =>
    intro fuel hfuel e2 rest heq
    injection heq with h1 h2
    subst h1
    subst h2
    obtain ⟨n, rfl⟩ : ∃ n, fuel = n + 1 := ⟨fuel - 1, by simp at hfuel; omega⟩
    simp [walkLoop, hl, hf, hm, entryFrame]
  | step e e2 rest hl hf hm hip hbp _ ih =>
    intro fuel hfuel e3 rest2 heq
    injection heq with h1 h2
    subst h1
    subst h2
    obtain ⟨n, rfl⟩ : ∃ n, fuel = n + 1 := ⟨fuel - 1, by simp at hfuel; omega⟩
    have hn : (e2 :: rest).length ≤ n := by simp at hfuel ⊢; omega
    have ihh := ih n hn e2 rest rfl
    simp [walkLoop, hl, hf, hm, hip, hbp, ihh, consW, entryFrame]

/-- Claim C4: for every synthetic frame-pointer chain (each visited address
resolving as recorded, only the last frame named main, each next
instruction pointer read from the word at frame base + 8 and each next
frame base from the word at frame base), the walk loop, given at least
chain-length fuel, finishes normally and prints exactly the frames of the
chain in top-to-bottom order with their recorded function, file and
line. -/
theorem claim4_stackwalk_chain (dd : DwarfData) (mem : Nat → Option Nat)
    (e : ChainEntry) (rest : List ChainEntry) (fuel : Nat)
    (h : Chain dd mem (e :: rest)) (hfuel : (e :: rest).length ≤ fuel) :
    (walkLoop dd mem fuel e.ip e.bp).1 = WalkOutcome.okW ((e :: rest).map entryFrame) :=
  chain_walk dd mem (e :: rest) h fuel hfuel e rest rfl

/-- Witness for C4: the concrete depth-2 chain g then main resolves to
exactly those two frames. -/
theorem claim4_witness :
    (walkLoop ddChain memChain 2 100 1000).1
      = WalkOutcome.okW
          [{ func := "g", file := "a.c", number := 3, addr := 100 },
           { func := "main", file := "a.c", number := 10, addr := 200 }] :=
  claim4_stackwalk_chain ddChain memChain entryG [entryMain] 2
    (Chain.step entryG entryMain [] rfl rfl (by decide) rfl rfl
      (Chain.last entryMain rfl rfl rfl))
    (by decide)

/-- Claim C5 counterexample: with the child alive and registers readable,
a walk whose second address fails to resolve makes print_backtrace panic
(the expect at the dwarf lookup) instead of propagating an error result,
refuting the claim that both failure kinds reach the caller as an error
result. -/
theorem claim5_counterexample :
    (Inferior.print_backtrace { pid := 42 } oracleBase ddBroken memBroken 2).1
      = OpResult.panicked
    ∧ (Inferior.print_backtrace { pid := 42 } oracleBase ddBroken memBroken 2).1
      ≠ OpResult.err := by
  exact ⟨rfl, by decide⟩

/-- Claim C5 (amended): the frames printed before the failure are always
reported to the operator (their frame lines are among the emitted
effects); a failed memory read of the traced process is propagated to the
caller as an error result, but a failed symbol resolution panics (the
expect calls) instead of producing an error result. -/
theorem claim5_amended (dd : DwarfData) (mem : Nat → Option Nat) (fuel : Nat)
    (inf : Inferior) (o : Oracle) (regs : Regs)
    (h1 : o.tryWaitRes = Except.ok Option.none)
    (h2 : o.btRegs = some regs) :
    (∀ pr effs, walkLoop dd mem fuel regs.rip regs.rbp = (WalkOutcome.readErrW pr, effs) →
      Inferior.print_backtrace inf o dd mem fuel
          = (OpResult.err, [Effect.tryWaitEff, Effect.getRegsEff] ++ effs)
        ∧ ∀ fr ∈ pr, Effect.printEff (frameLine fr) ∈ effs)
    ∧ (∀ pr effs, walkLoop dd mem fuel regs.rip regs.rbp = (WalkOutcome.panicW pr, effs) →
      Inferior.print_backtrace inf o dd mem fuel
          = (OpResult.panicked, [Effect.tryWaitEff, Effect.getRegsEff] ++ effs)
        ∧ ∀ fr ∈ pr, Effect.printEff (frameLine fr) ∈ effs) := by
  constructor
  · intro pr effs hw
    constructor
    · simp [Inferior.print_backtrace, Inferior.check_running, Inferior.running, h1, h2, hw]
    · intro fr hfr
      have hp := walk_printed_in_effects dd mem fuel regs.rip regs.rbp fr
      rw [hw] at hp
      exact hp hfr
  · intro pr effs hw
    constructor
    · simp [Inferior.print_backtrace, Inferior.check_running, Inferior.running, h1, h2, hw]
    · intro fr hfr
      have hp := walk_printed_in_effects dd mem fuel regs.rip regs.rbp fr
      rw [hw] at hp
      exact hp hfr

/-- Witness for the amended C5: on memory where every read fails, the one
resolved frame is printed and the walk failure surfaces as an error
result from print_backtrace. -/
theorem claim5_amended_witness :
    Inferior.print_backtrace { pid := 42 } oracleBase ddLoop memFail 2
      = (OpResult.err,
         [Effect.tryWaitEff, Effect.getRegsEff]
           ++ [.printEff "f (a.c:1)", .ptraceReadEff 8])
    ∧ Effect.printEff (frameLine { func := "f", file := "a.c", number := 1, addr := 0 })
        ∈ [Effect.printEff "f (a.c:1)", Effect.ptraceReadEff 8] :=
  ⟨((claim5_amended ddLoop memFail 2 { pid := 42 } oracleBase { rip := 0, rbp := 0 }
      rfl rfl).1
      [{ func := "f", file := "a.c", number := 1, addr := 0 }]
      [.printEff "f (a.c:1)", .ptraceReadEff 8] rfl).1,
   ((claim5_amended ddLoop memFail 2 { pid := 42 } oracleBase { rip := 0, rbp := 0 }
      rfl rfl).1
      [{ func := "f", file := "a.c", number := 1, addr := 0 }]
      [.printEff "f (a.c:1)", .ptraceReadEff 8] rfl).2
      { func := "f", file := "a.c", number := 1, addr := 0 } (by decide)⟩

/-- Claim C6: every sequence of Continue or Backtrace commands processed
with no active process leaves the loop state unchanged, reports the
not-running condition (the rendered Err(EIO) notice) once per command, and
performs no state-changing system call; and a resume or terminate issued
on a handle whose liveness probe reports a terminal phase returns
Status::None with only the probe and the no-running notice, again with no
state-changing system call. -/
theorem claim6_not_running (dd : DwarfData) (mem : Nat → Option Nat) (fuel : Nat)
    (st : DebuggerState) (cmds : List (DebuggerCommand × Oracle))
    (hst : st.inferior = Option.none)
    (hc : ∀ p ∈ cmds,
      p.1 = DebuggerCommand.continueCmd ∨ p.1 = DebuggerCommand.backtraceCmd) :
    (runCommands dd mem fuel st cmds
        = (.nextS st, List.replicate cmds.length (.printEff "Error running inferior"))
      ∧ ∀ e ∈ (runCommands dd mem fuel st cmds).2, e.stateChanging = false)
    ∧ ∀ (inf : Inferior) (o : Oracle), o.tryWaitRes = Except.ok (some ()) →
        Inferior.continue_exec inf o
            = (OpResult.ok Status.none, [.tryWaitEff, .printEff "No running inferior"])
          ∧ Inferior.kill inf o
            = (OpResult.ok Status.none, [.tryWaitEff, .printEff "No running inferior"])
          ∧ ∀ e ∈ (Inferior.continue_exec inf o).2 ++ (Inferior.kill inf o).2,
              e.stateChanging = false := by
  have hrun := runCommandsEmpty dd mem fuel st hst cmds hc
  refine ⟨⟨hrun, ?_⟩, ?_⟩
  · intro e he
    rw [hrun] at he
    simp [List.eq_of_mem_replicate he, Effect.stateChanging]
  · intro inf o ho
    have hce : Inferior.continue_exec inf o
        = (OpResult.ok Status.none, [.tryWaitEff, .printEff "No running inferior"]) := by
      simp [Inferior.continue_exec, Inferior.check_running, Inferior.running, ho]
    have hki : Inferior.kill inf o
        = (OpResult.ok Status.none, [.tryWaitEff, .printEff "No running inferior"]) := by
      simp [Inferior.kill, Inferior.check_running, Inferior.running, ho]
    refine ⟨hce, hki, ?_⟩
    intro e he
    rw [hce, hki] at he
    fin_cases he <;> rfl

/-- Witness for C6: two commands (Continue then Backtrace) with an empty
slot produce exactly two error notices and leave the state unchanged, and
a kill on a probe-dead handle of pid 42 returns Status::None with only the
probe and the notice. -/
theorem claim6_witness :
    runCommands ddMain memZero 1 stEmpty cmdsCB
      = (.nextS stEmpty, List.replicate 2 (.printEff "Error running inferior"))
    ∧ Inferior.kill { pid := 42 } oracleDead
      = (OpResult.ok Status.none, [.tryWaitEff, .printEff "No running inferior"]) :=
  ⟨((claim6_not_running ddMain memZero 1 stEmpty cmdsCB rfl (by decide)).1).1,
   ((claim6_not_running ddMain memZero 1 stEmpty cmdsCB rfl (by decide)).2
      { pid := 42 } oracleDead rfl).2.1⟩

/-- Claim C7: a terminate issued on a process whose phase is Stopped (the
liveness probe reports it running, the SIGKILL send succeeds, and — the
POSIX guarantee for SIGKILL — the confirming blocking wait observes a
terminal event) always yields a terminal lifecycle event: Exited or
Signaled, never Stopped and never Status::None. -/
theorem claim7_kill_terminal (inf : Inferior) (o : Oracle) (ws : WaitStatus)
    (h1 : o.tryWaitRes = Except.ok Option.none)
    (h2 : o.killSysOk = true)
    (h3 : o.waitRes = Except.ok ws)
    (h4 : ws.isTerminalWS = true) :
    ∃ s, (Inferior.kill inf o).1 = OpResult.ok s ∧ s.isTerminal = true := by
  cases ws with
  | exitedWS c =>
    exact ⟨.exited c,
      by simp [Inferior.kill, Inferior.check_running, Inferior.running, Inferior.wait,
        h1, h2, h3], rfl⟩
  | signaledWS s b =>
    exact ⟨.signaled s,
      by simp [Inferior.kill, Inferior.check_running, Inferior.running, Inferior.wait,
        h1, h2, h3], rfl⟩
  | stoppedWS s => simp [WaitStatus.isTerminalWS] at h4
  | otherWS => simp [WaitStatus.isTerminalWS] at h4

/-- Witness for C7: killing the pid-42 inferior whose confirming wait
observes death by SIGKILL yields a terminal event. -/
theorem claim7_witness :
    ∃ s, (Inferior.kill { pid := 42 } oracleKilled).1 = OpResult.ok s
      ∧ s.isTerminal = true :=
  claim7_kill_terminal { pid := 42 } oracleKilled (.signaledWS SIGKILL false)
    rfl rfl rfl rfl

/-- Claim C8: the walk loop has no termination condition other than
resolving the name main: whenever every address resolves to a line and to
some function other than main and every memory read succeeds, the loop is
still running when any amount of fuel runs out — in the fuel model it
returns the fuel-exhausted marker at every fuel bound, for every starting
instruction pointer and frame base. -/
theorem claim8_walk_diverges (dd : DwarfData) (mem : Nat → Option Nat)
    (hl : ∀ ip, (dd.get_line_from_addr ip).isSome = true)
    (hf : ∀ ip, ∃ f, dd.get_function_from_addr ip = some f ∧ f ≠ "main")
    (hm : ∀ a, (mem a).isSome = true) :
    ∀ fuel ip bp, ∃ pr, (walkLoop dd mem fuel ip bp).1 = WalkOutcome.fuelW pr := by
  intro fuel
  induction fuel with
  | zero => intro ip bp; exact ⟨[], rfl⟩
  | succ n ih =>
    intro ip bp
    obtain ⟨line, hline⟩ := Option.isSome_iff_exists.mp (hl ip)
    obtain ⟨fn, hfn, hfnm⟩ := hf ip
    obtain ⟨w1, hw1⟩ := Option.isSome_iff_exists.mp (hm (bp + 8))
    obtain ⟨w2, hw2⟩ := Option.isSome_iff_exists.mp (hm bp)
    obtain ⟨pr, hpr⟩ := ih w1 w2
    exact ⟨{ func := fn, file := line.file, number := line.number, addr := ip } :: pr,
      by simp [walkLoop, hline, hfn, hfnm, hw1, hw2, hpr, consW]⟩

/-- Witness for C8: on a database resolving everything to f and memory
reading all zeros, three units of fuel are exhausted with the loop still
running. -/
theorem claim8_witness :
    ∃ pr, (walkLoop ddLoop memZero 3 0 0).1 = WalkOutcome.fuelW pr :=
  claim8_walk_diverges ddLoop memZero (fun _ => rfl)
    (fun _ => ⟨"f", rfl, by decide⟩) (fun _ => rfl) 3 0 0

/-- Claim C9: the status rendering clears the active-process slot on both
terminal events (Exited and Signaled) and keeps the whole state on a
Stopped event; and with an empty slot every subsequent Continue or
Backtrace command evaluates to the Err(EIO) report with the state
unchanged, until a Run succeeds. -/
theorem claim9_terminal_clears_slot (st : DebuggerState) (code : Int)
    (sig : Signal) (pc : Nat) :
    ((renderStatus st (.ok (.exited code))).1.inferior = Option.none
      ∧ (renderStatus st (.ok (.signaled sig))).1.inferior = Option.none
      ∧ (renderStatus st (.ok (.stopped sig pc))).1 = st)
    ∧ ∀ (dd : DwarfData) (mem : Nat → Option Nat) (fuel : Nat)
        (st2 : DebuggerState) (o : Oracle), st2.inferior = Option.none →
        debuggerStep dd mem fuel st2 o .continueCmd
            = (.nextS st2, [.printEff "Error running inferior"])
          ∧ debuggerStep dd mem fuel st2 o .backtraceCmd
            = (.nextS st2, [.printEff "Error running inferior"]) := by
  refine ⟨⟨rfl, rfl, rfl⟩, ?_⟩
  intro dd mem fuel st2 o h
  exact ⟨stepEmptyContinue dd mem fuel st2 o h, stepEmptyBacktrace dd mem fuel st2 o h⟩

/-- Witness for C9: rendering a clean exit over the active state empties
the slot, and a Continue on the empty state reports the error notice. -/
theorem claim9_witness :
    (renderStatus stActive (.ok (.exited 0))).1.inferior = Option.none
    ∧ debuggerStep ddMain memZero 1 stEmpty oracleBase .continueCmd
        = (.nextS stEmpty, [.printEff "Error running inferior"]) :=
  ⟨((claim9_terminal_clears_slot stActive 0 9 0).1).1,
   ((claim9_terminal_clears_slot stActive 0 9 0).2 ddMain memZero 1 stEmpty
      oracleBase rfl).1⟩

/-- Claim C10: a Backtrace command whose walk finishes normally returns
Ok(Status::None); the loop state (and so the active-process slot) is
unchanged, the only effects are the liveness probe, the register read and
the walk effects (frame lines and memory reads) — no lifecycle-event line
is printed and no state-changing system call touches the traced
process. -/
theorem claim10_backtrace_nochange (dd : DwarfData) (mem : Nat → Option Nat)
    (fuel : Nat) (st : DebuggerState) (inf : Inferior) (o : Oracle) (regs : Regs)
    (frames : List Frame) (weffs : List Effect)
    (h1 : st.inferior = some inf)
    (h2 : o.tryWaitRes = Except.ok Option.none)
    (h3 : o.btRegs = some regs)
    (h4 : walkLoop dd mem fuel regs.rip regs.rbp = (WalkOutcome.okW frames, weffs)) :
    Inferior.print_backtrace inf o dd mem fuel
        = (OpResult.ok Status.none, [Effect.tryWaitEff, Effect.getRegsEff] ++ weffs)
    ∧ debuggerStep dd mem fuel st o .backtraceCmd
        = (.nextS st, [Effect.tryWaitEff, Effect.getRegsEff] ++ weffs)
    ∧ ∀ e ∈ (debuggerStep dd mem fuel st o .backtraceCmd).2,
        e.stateChanging = false := by
  have hpb : Inferior.print_backtrace inf o dd mem fuel
      = (OpResult.ok Status.none, [Effect.tryWaitEff, Effect.getRegsEff] ++ weffs) := by
    simp [Inferior.print_backtrace, Inferior.check_running, Inferior.running, h2, h3, h4]
  have hstep : debuggerStep dd mem fuel st o .backtraceCmd
      = (.nextS st, [Effect.tryWaitEff, Effect.getRegsEff] ++ weffs) := by
    simp [debuggerStep, h1, hpb, finishStep, renderStatus]
  refine ⟨hpb, hstep, ?_⟩
  intro e he
  rw [hstep] at he
  simp at he
  rcases he with he | he | he
  · simp [he, Effect.stateChanging]
  · simp [he, Effect.stateChanging]
  · exact walk_effects_not_state_changing dd mem fuel regs.rip regs.rbp e
      (by rw [h4]; exact he)

/-- Witness for C10: a Backtrace over the pid-42 inferior stopped directly
in main prints one frame line and leaves the loop state unchanged. -/
theorem claim10_witness :
    Inferior.print_backtrace { pid := 42 } oracleBase ddMain memZero 1
      = (OpResult.ok Status.none,
         [Effect.tryWaitEff, Effect.getRegsEff] ++ [.printEff "main (a.c:1)"])
    ∧ debuggerStep ddMain memZero 1 stActive oracleBase .backtraceCmd
      = (.nextS stActive, [Effect.tryWaitEff, Effect.getRegsEff]
          ++ [.printEff "main (a.c:1)"]) :=
  ⟨(claim10_backtrace_nochange ddMain memZero 1 stActive { pid := 42 } oracleBase
      { rip := 0, rbp := 0 }
      [{ func := "main", file := "a.c", number := 1, addr := 0 }]
      [.printEff "main (a.c:1)"] rfl rfl rfl rfl).1,
   (claim10_backtrace_nochange ddMain memZero 1 stActive { pid := 42 } oracleBase
      { rip := 0, rbp := 0 }
      [{ func := "main", file := "a.c", number := 1, addr := 0 }]
      [.printEff "main (a.c:1)"] rfl rfl rfl rfl).2.1⟩

end Deet
